import Mathlib

/-!
Verification of the fact-checking orchestrator in `api.py` (RAG-agent).

The service is pure orchestration around two external calls: a knowledge-base
HTTP search (`kb_search`) and an LLM completion (`analyze_with_gpt`), wired
together by the `/solve` endpoint (`solve_endpoint`).  We embed the Python
code shallowly:

* JSON-decoded Python values are the inductive `Json` (ints only for numbers;
  no claim depends on floats).
* Raising Python code is embedded in `Except String`, the `String` being
  `str(e)` of the raised exception.  Python quote characters inside messages
  are written with `\x27` escapes.
* The two external effects are oracles passed as arguments: a `KbResponse`
  (what `requests.post` did) and a `GptOutcome` (what
  `openai.chat.completions.create` did); `json.loads` is passed as an
  abstract parse function `String → Option Json` (`none` = JSONDecodeError).
-/

namespace RAGAgent

/-- A JSON-decoded Python value (`json.loads` output, request/response
bodies).  Numbers are modelled as integers; none of the verified properties
involves floating point. -/
inductive Json where
  | null
  | bool (b : Bool)
  | num (n : Int)
  | str (s : String)
  | arr (elems : List Json)
  | obj (fields : List (String × Json))

/-- Python type name of a decoded JSON value, as it appears in TypeError
messages. -/
def pyTypeName : Json → String
  | .null => "NoneType"
  | .bool _ => "bool"
  | .num _ => "int"
  | .str _ => "str"
  | .arr _ => "list"
  | .obj _ => "dict"

/-- Python truthiness (`if not docs:`) of a decoded JSON value. -/
def pyTruthy : Json → Bool
  | .null => false
  | .bool b => b
  | .num n => n != 0
  | .str s => !s.isEmpty
  | .arr xs => !xs.isEmpty
  | .obj fs => !fs.isEmpty

/-- Python `v[k]` for a string key `k`: dict lookup, raising KeyError when
the key is absent (its `str` is the repr of the key) and TypeError on
non-dicts. -/
def pyGetItem (v : Json) (k : String) : Except String Json :=
  match v with
  | .obj fs =>
    match fs.find? (fun p => p.1 == k) with
    | some p => .ok p.2
    | none => .error ("\x27" ++ k ++ "\x27")
  | .arr _ => .error "list indices must be integers or slices, not str"
  | .str _ => .error "string indices must be integers, not \x27str\x27"
  | v => .error ("\x27" ++ pyTypeName v ++ "\x27 object is not subscriptable")

/-- Fields of a Python dict after `fs[k] = v`: an existing key keeps its
position and is overwritten, a new key is appended (insertion order). -/
def setField (fs : List (String × Json)) (k : String) (v : Json) :
    List (String × Json) :=
  if fs.any (fun p => p.1 == k) then
    fs.map (fun p => if p.1 == k then (k, v) else p)
  else
    fs ++ [(k, v)]

/-- Python `r[k] = v` on a decoded JSON value: succeeds only on dicts,
raising TypeError otherwise (this is what happens at `api.py` line 96 when
the model returned valid JSON that is not an object). -/
def pySetItem (r : Json) (k : String) (v : Json) : Except String Json :=
  match r with
  | .obj fs => .ok (.obj (setField fs k v))
  | r => .error ("\x27" ++ pyTypeName r ++ "\x27 object does not support item assignment")

/-- Python iteration `for doc in docs` over a decoded JSON value: lists
yield their elements, strings their one-character substrings, dicts their
keys; the rest raise TypeError. -/
def pyIter (v : Json) : Except String (List Json) :=
  match v with
  | .arr xs => .ok xs
  | .str s => .ok (s.toList.map (fun c => .str (String.singleton c)))
  | .obj fs => .ok (fs.map (fun p => .str p.1))
  | v => .error ("\x27" ++ pyTypeName v ++ "\x27 object is not iterable")

mutual

/-- Python `repr` of a decoded JSON value (string escaping inside reprs is
elided; no verified property depends on it). -/
def pyRepr : Json → String
  | .null => "None"
  | .bool b => if b then "True" else "False"
  | .num n => toString n
  | .str s => "\x27" ++ s ++ "\x27"
  | .arr xs => "[" ++ pyReprList xs ++ "]"
  | .obj fs => "\x7b" ++ pyReprFields fs ++ "\x7d"

/-- Comma-separated reprs of list elements. -/
def pyReprList : List Json → String
  | [] => ""
  | [x] => pyRepr x
  | x :: y :: xs => pyRepr x ++ ", " ++ pyReprList (y :: xs)

/-- Comma-separated reprs of dict entries. -/
def pyReprFields : List (String × Json) → String
  | [] => ""
  | [(k, v)] => "\x27" ++ k ++ "\x27: " ++ pyRepr v
  | (k, v) :: y :: fs => "\x27" ++ k ++ "\x27: " ++ pyRepr v ++ ", " ++ pyReprFields (y :: fs)

end

/-- Python `str` of a decoded JSON value, as used by the f-strings building
the context and citation lines. -/
def pyStr : Json → String
  | .str s => s
  | v => pyRepr v

/-- First-match association lookup on a JSON object; `none` on non-objects
or absent keys.  Spec-side accessor used to state properties about response
fields. -/
def jsonGet (v : Json) (k : String) : Option Json :=
  match v with
  | .obj fs => (fs.find? (fun p => p.1 == k)).map (fun p => p.2)
  | _ => none

/-- Left-to-right effectful map, mirroring a Python list comprehension that
may raise: stops at the first exception. -/
def mapExcept (f : α → Except String β) : List α → Except String (List β)
  | [] => .ok []
  | a :: as =>
    match f a with
    | .error e => .error e
    | .ok b =>
      match mapExcept f as with
      | .error e => .error e
      | .ok bs => .ok (b :: bs)

/-- Outcome of the `requests.post` call made by `kb_search`: either the
request itself raised (connection failure, DNS error, timeout, ...) or an
HTTP response came back, whose decoded JSON body is `none` when the body is
not valid JSON (`resp.json()` raises). -/
inductive KbResponse where
  | netError (msg : String)
  | response (status : Nat) (body : Option Json)

/-- Embedding of `kb_search` (api.py lines 40-50).  The whole body is inside
`try: ... except Exception: return []`, so every failure mode degrades to the
empty list: transport errors, `raise_for_status` on a 4xx/5xx status,
an unparseable body, a non-dict body (`.get` raises AttributeError), and a
`results` value that does not support `len` (the `print` call raises
TypeError).  A `results` value that is a list, string or dict is returned
as-is. -/
def kb_search (resp : KbResponse) : Json :=
  match resp with
  | .netError _ => .arr []
  | .response status body =>
    if 400 ≤ status ∧ status < 600 then .arr []
    else
      match body with
      | none => .arr []
      | some (.obj fields) =>
        let results := ((fields.find? (fun p => p.1 == "results")).map (fun p => p.2)).getD (.arr [])
        match results with
        | .arr xs => .arr xs
        | .str s => .str s
        | .obj fs => .obj fs
        | _ => .arr []
      | some _ => .arr []

/-- Outcome of the `openai.chat.completions.create` call: either it raised
(network, auth, quota, ...; `msg` is `str(e)`) or it returned a completion
whose message content is `text`. -/
inductive GptOutcome where
  | raised (msg : String)
  | returned (text : String)

/-- Embedding of `analyze_with_gpt` (api.py lines 55-107), parameterised by
`jsonLoads`, the oracle for `json.loads` on the completion text (`none`
means JSONDecodeError).  Lines 56-57 run before the `try`, so a document
without a `doc_id` or `content` key raises out of the function (KeyError).
Inside the `try`: a raising completion call lands in the `except` branch
(lines 99-107); otherwise the text is parsed, with the textual fallback dict
on parse failure (lines 88-94), and `result["retrieved_context_ids"] = ...`
(line 96) raises TypeError into the same `except` branch when the parsed
JSON is not an object. -/
def analyze_with_gpt (jsonLoads : String → Option Json) (claim : String)
    (docs : Json) (gpt : GptOutcome) : Except String Json :=
  match pyIter docs with
  | .error e => .error e
  | .ok elems =>
  match mapExcept (fun d => pyGetItem d "doc_id") elems with
  | .error e => .error e
  | .ok retrieved_context_ids =>
    match mapExcept
        (fun d => do
          let i ← pyGetItem d "doc_id"
          let c ← pyGetItem d "content"
          .ok (pyStr i ++ ": " ++ pyStr c)) elems with
    | .error e => .error e
    | .ok docLines =>
      match gpt with
      | .raised msg =>
        .ok (.obj [("thought_process", .str ""),
                   ("final_answer", .str "Partially True"),
                   ("citation", .str (String.intercalate "; " docLines)),
                   ("retrieved_context_ids", .arr retrieved_context_ids),
                   ("error", .str msg)])
      | .returned gpt_output =>
        let result : Json :=
          match jsonLoads gpt_output with
          | some parsed => parsed
          | none =>
            .obj [("thought_process", .str gpt_output),
                  ("final_answer", .str "Partially True"),
                  ("citation", .str (String.intercalate "; " docLines))]
        match pySetItem result "retrieved_context_ids" (.arr retrieved_context_ids) with
        | .ok r => .ok r
        | .error e =>
          .ok (.obj [("thought_process", .str ""),
                     ("final_answer", .str "Partially True"),
                     ("citation", .str (String.intercalate "; " docLines)),
                     ("retrieved_context_ids", .arr retrieved_context_ids),
                     ("error", .str e)])

/-- Embedding of the `/solve` handler (api.py lines 112-139).  The claim
string is the validated request body field.  `kb_search` cannot raise, so
the only exceptions reaching the endpoint `except` branch come out of
`analyze_with_gpt`; the handler is total: every input produces a response
dict. -/
def solve_endpoint (jsonLoads : String → Option Json) (claim : String)
    (kb : KbResponse) (gpt : GptOutcome) : Json :=
  let docs := kb_search kb
  if !pyTruthy docs then
    .obj [("thought_process", .str "No documents found in KB."),
          ("final_answer", .str "Partially True"),
          ("citation", .str ""),
          ("retrieved_context_ids", .arr [])]
  else
    match analyze_with_gpt jsonLoads claim docs gpt with
    | .ok result => result
    | .error e =>
      .obj [("thought_process", .str ""),
            ("final_answer", .str "Partially True"),
            ("citation", .str ""),
            ("retrieved_context_ids", .arr []),
            ("error", .str e)]

/-- String-valued names bound at module top level before api.py line 16
executes.  `load_dotenv()` only mutates `os.environ`; it binds no module
name, and `os.getenv` is never called anywhere in the module, so no binding
named `OPENAI_API_KEY` exists, whatever the process environment holds. -/
def moduleStringGlobals (env : String → Option String) : List (String × String) := []

/-- Embedding of the module initialization (api.py lines 15-18), over the
process environment.  Line 16 reads the module-level name `OPENAI_API_KEY`;
when it is unbound the read raises NameError before the emptiness check on
line 17 ever runs. -/
def module_init (env : String → Option String) : Except String Unit :=
  match (moduleStringGlobals env).find? (fun p => p.1 == "OPENAI_API_KEY") with
  | none => .error "NameError: name \x27OPENAI_API_KEY\x27 is not defined"
  | some p =>
    if p.2 = "" then
      .error "ValueError: OPENAI_API_KEY is not set in environment variables."
    else
      .ok ()

/-- JSON string escaping as in `json.dumps(..., ensure_ascii=False)`. -/
def jsonEscapeChar (c : Char) : String :=
  if c = '"' then "\\\""
  else if c = '\\' then "\\\\"
  else if c = '\n' then "\\n"
  else if c = '\t' then "\\t"
  else if c = '\r' then "\\r"
  else if c = '\x08' then "\\b"
  else if c = '\x0c' then "\\f"
  else if c.toNat < 32 then
    "\\u00" ++ String.singleton (Nat.digitChar (c.toNat / 16)) ++
      String.singleton (Nat.digitChar (c.toNat % 16))
  else
    String.singleton c

mutual

/-- Serialization of the response body, as FastAPI's JSONResponse renders a
returned dict: `json.dumps` with separators `,` and `:`, `ensure_ascii`
off, dict fields in insertion order. -/
def jsonDumps : Json → String
  | .null => "null"
  | .bool b => if b then "true" else "false"
  | .num n => toString n
  | .str s => "\"" ++ String.join (s.toList.map jsonEscapeChar) ++ "\""
  | .arr xs => "[" ++ jsonDumpsList xs ++ "]"
  | .obj fs => "\x7b" ++ jsonDumpsFields fs ++ "\x7d"

/-- Comma-separated serializations of array elements. -/
def jsonDumpsList : List Json → String
  | [] => ""
  | [x] => jsonDumps x
  | x :: y :: xs => jsonDumps x ++ "," ++ jsonDumpsList (y :: xs)

/-- Comma-separated serializations of object entries. -/
def jsonDumpsFields : List (String × Json) → String
  | [] => ""
  | [(k, v)] => jsonDumps (.str k) ++ ":" ++ jsonDumps v
  | (k, v) :: y :: fs => jsonDumps (.str k) ++ ":" ++ jsonDumps v ++ "," ++ jsonDumpsFields (y :: fs)

end

/-- The JSON object for a well-formed knowledge-base document with string
identifier and content, `(doc_id, content)` as a pair. -/
def mkDoc (p : String × String) : Json :=
  .obj [("doc_id", .str p.1), ("content", .str p.2)]

/-- A list of well-formed documents as the JSON list the knowledge base
returns. -/
def mkDocs (ps : List (String × String)) : Json :=
  .arr (ps.map mkDoc)

/-- The fallback citation string for well-formed documents: the
`doc_id: content` lines joined by semicolons. -/
def citationOf (ps : List (String × String)) : String :=
  String.intercalate "; " (ps.map (fun p => p.1 ++ ": " ++ p.2))

/-- The document identifiers of well-formed documents, as JSON strings in
order. -/
def idsOf (ps : List (String × String)) : List Json :=
  ps.map (fun p => Json.str p.1)

/-- The `retrieved_context_ids` field of a non-raising result, `none` when
the call raised or the field is absent. -/
def resultIds (r : Except String Json) : Option Json :=
  match r with
  | .ok v => jsonGet v "retrieved_context_ids"
  | .error _ => none

/-! Helper lemmas about the embedding. -/

lemma mapExcept_ids (ps : List (String × String)) :
    mapExcept (fun d => pyGetItem d "doc_id") (ps.map mkDoc) = .ok (idsOf ps) := by
  induction ps with
  | nil => rfl
  | cons p ps ih =>
    simp only [List.map_cons, mapExcept]
    rw [ih]
    rfl

lemma mapExcept_lines (ps : List (String × String)) :
    mapExcept
      (fun d => do
        let i ← pyGetItem d "doc_id"
        let c ← pyGetItem d "content"
        .ok (pyStr i ++ ": " ++ pyStr c)) (ps.map mkDoc) =
      .ok (ps.map (fun p => p.1 ++ ": " ++ p.2)) := by
  induction ps with
  | nil => rfl
  | cons p ps ih =>
    simp only [List.map_cons, mapExcept]
    rw [ih]
    rfl

lemma find?_map_overwrite (k : String) (v : Json) (fs : List (String × Json))
    (h : fs.any (fun p => p.1 == k) = true) :
    (fs.map (fun p => if p.1 == k then (k, v) else p)).find? (fun p => p.1 == k) =
      some (k, v) := by
  induction fs with
  | nil => simp at h
  | cons q fs ih =>
    by_cases hq : (q.1 == k) = true
    · rw [List.map_cons, if_pos hq, List.find?_cons_of_pos _ (by simp)]
    · have hq' : (q.1 == k) = false := by simpa using hq
      have h2 : fs.any (fun p => p.1 == k) = true := by
        simp only [List.any_cons, hq', Bool.false_or] at h
        exact h
      rw [List.map_cons, if_neg hq, List.find?_cons_of_neg _ (by simpa using hq)]
      exact ih h2

lemma find?_setField (fs : List (String × Json)) (k : String) (v : Json) :
    (setField fs k v).find? (fun p => p.1 == k) = some (k, v) := by
  unfold setField
  by_cases h : fs.any (fun p => p.1 == k) = true
  · rw [if_pos h]
    exact find?_map_overwrite k v fs h
  · rw [if_neg h]
    have hnone : fs.find? (fun p => p.1 == k) = none := by
      rw [List.find?_eq_none]
      intro x hx
      have := List.any_eq_false.mp (Bool.eq_false_iff.mpr h) x hx
      simpa using this
    rw [List.find?_append, hnone, Option.none_or, List.find?_cons_of_pos _ (by simp)]

lemma jsonGet_setField (fs : List (String × Json)) (k : String) (v : Json) :
    jsonGet (.obj (setField fs k v)) k = some v := by
  simp [jsonGet, find?_setField]

lemma pyTruthy_mkDocs (ps : List (String × String)) (h : ps ≠ []) :
    pyTruthy (mkDocs ps) = true := by
  cases ps with
  | nil => exact absurd rfl h
  | cons p ps => rfl

/-- Branch lemma: the completion call raised (api.py lines 99-107). -/
lemma analyze_raised (jl : String → Option Json) (claim : String)
    (ps : List (String × String)) (msg : String) :
    analyze_with_gpt jl claim (mkDocs ps) (.raised msg) =
      .ok (.obj [("thought_process", .str ""),
                 ("final_answer", .str "Partially True"),
                 ("citation", .str (citationOf ps)),
                 ("retrieved_context_ids", .arr (idsOf ps)),
                 ("error", .str msg)]) := by
  simp only [analyze_with_gpt, mkDocs, pyIter, mapExcept_ids, mapExcept_lines, citationOf]

/-- Branch lemma: the completion text is not valid JSON (api.py lines 88-96). -/
lemma analyze_parse_fail (jl : String → Option Json) (claim : String)
    (ps : List (String × String)) (text : String) (hparse : jl text = none) :
    analyze_with_gpt jl claim (mkDocs ps) (.returned text) =
      .ok (.obj [("thought_process", .str text),
                 ("final_answer", .str "Partially True"),
                 ("citation", .str (citationOf ps)),
                 ("retrieved_context_ids", .arr (idsOf ps))]) := by
  simp only [analyze_with_gpt, mkDocs, pyIter, mapExcept_ids, mapExcept_lines, hparse,
    pySetItem, setField, citationOf]
  rfl

/-- Branch lemma: the completion text parses to a JSON object (api.py
lines 87, 96-97). -/
lemma analyze_parse_obj (jl : String → Option Json) (claim : String)
    (ps : List (String × String)) (text : String) (fs : List (String × Json))
    (hparse : jl text = some (.obj fs)) :
    analyze_with_gpt jl claim (mkDocs ps) (.returned text) =
      .ok (.obj (setField fs "retrieved_context_ids" (.arr (idsOf ps)))) := by
  simp only [analyze_with_gpt, mkDocs, pyIter, mapExcept_ids, mapExcept_lines, hparse,
    pySetItem]

/-- Branch lemma: the completion text parses to a JSON value that is not an
object, so line 96 raises TypeError into the `except` branch. -/
lemma analyze_parse_nonobj (jl : String → Option Json) (claim : String)
    (ps : List (String × String)) (text : String) (j : Json)
    (hparse : jl text = some j) (hnotobj : ∀ fs, j ≠ .obj fs) :
    analyze_with_gpt jl claim (mkDocs ps) (.returned text) =
      .ok (.obj [("thought_process", .str ""),
                 ("final_answer", .str "Partially True"),
                 ("citation", .str (citationOf ps)),
                 ("retrieved_context_ids", .arr (idsOf ps)),
                 ("error", .str ("\x27" ++ pyTypeName j ++ "\x27 object does not support item assignment"))]) := by
  simp only [analyze_with_gpt, mkDocs, pyIter, mapExcept_ids, mapExcept_lines, hparse,
    citationOf]
  cases j with
  | obj fs => exact absurd rfl (hnotobj fs)
  | null => rfl
  | bool b => rfl
  | num n => rfl
  | str s => rfl
  | arr xs => rfl

end RAGAgent

namespace RAGAgent

/-- Failure modes of the knowledge-base call covered by the degradation
policy: the request raised (transport failure or timeout), or the response
status is an HTTP error (4xx/5xx), which `raise_for_status` turns into an
exception. -/
def kbFailed : KbResponse → Bool
  | .netError _ => true
  | .response status _ => 400 ≤ status && status < 600

/-- C1: whenever the knowledge-base search returns an empty document list,
the `/solve` handler returns exactly the fixed fallback verdict: reasoning
"No documents found in KB.", label "Partially True", empty citation, empty
identifier list, and no error field. -/
theorem C1_empty_kb_fixed_fallback (jl : String → Option Json) (claim : String)
    (kb : KbResponse) (gpt : GptOutcome) (h : kb_search kb = .arr []) :
    solve_endpoint jl claim kb gpt =
      .obj [("thought_process", .str "No documents found in KB."),
            ("final_answer", .str "Partially True"),
            ("citation", .str ""),
            ("retrieved_context_ids", .arr [])] := by
  simp only [solve_endpoint, h]
  rfl

/-- Witness for C1 at a concrete input: a timed-out knowledge-base call
yields the empty list and the fixed fallback response. -/
theorem C1_witness :
    kb_search (.netError "connection timed out") = .arr [] ∧
    solve_endpoint (fun _ => none) "The Earth is flat" (.netError "connection timed out")
        (.returned "x") =
      .obj [("thought_process", .str "No documents found in KB."),
            ("final_answer", .str "Partially True"),
            ("citation", .str ""),
            ("retrieved_context_ids", .arr [])] :=
  ⟨rfl, C1_empty_kb_fixed_fallback _ _ _ _ rfl⟩

/-- C2: `kb_search` never raises, and on any transport failure, timeout or
non-success HTTP status it returns the empty list — indistinguishable from
a genuinely empty result set. -/
theorem C2_kb_search_degrades_to_empty (kb : KbResponse) (h : kbFailed kb = true) :
    kb_search kb = .arr [] ∧
    kb_search kb = kb_search (.response 200 (some (.obj [("results", .arr [])]))) := by
  cases kb with
  | netError msg => exact ⟨rfl, rfl⟩
  | response status body =>
    have hs : 400 ≤ status ∧ status < 600 := by
      simpa [kbFailed] using h
    constructor <;> simp [kb_search, if_pos hs]

/-- Witness for C2 at a concrete input: a 503 response degrades to the
empty document list. -/
theorem C2_witness :
    kbFailed (.response 503 none) = true ∧
    kb_search (.response 503 none) = .arr [] :=
  ⟨rfl, (C2_kb_search_degrades_to_empty (.response 503 none) rfl).1⟩

/-- C3: module initialization raises for every process environment — even
one carrying the credential — because line 16 reads the never-bound module
name `OPENAI_API_KEY` instead of consulting the environment, so the
documented check on lines 17-18 is unreachable. -/
theorem C3_startup_always_raises (env : String → Option String) :
    module_init env = .error "NameError: name \x27OPENAI_API_KEY\x27 is not defined" := rfl

/-- C4: with a non-empty document list, when the completion succeeds but its
text is not valid JSON, the result is the textual fallback verdict: the raw
completion text as reasoning, label "Partially True", and the documents
joined as `doc_id: content` with `; ` separators as citation. -/
theorem C4_nonjson_textual_fallback (jl : String → Option Json) (claim : String)
    (ps : List (String × String)) (text : String)
    (hne : ps ≠ []) (hparse : jl text = none) :
    analyze_with_gpt jl claim (mkDocs ps) (.returned text) =
      .ok (.obj [("thought_process", .str text),
                 ("final_answer", .str "Partially True"),
                 ("citation", .str (citationOf ps)),
                 ("retrieved_context_ids", .arr (idsOf ps))]) :=
  analyze_parse_fail jl claim ps text hparse

/-- Witness for C4 at a concrete input: two documents, unparseable
completion text. -/
theorem C4_witness :
    ([("D1", "w"), ("D2", "v")] : List (String × String)) ≠ [] ∧
    (fun _ => (none : Option Json)) "not json" = none ∧
    analyze_with_gpt (fun _ => none) "c" (mkDocs [("D1", "w"), ("D2", "v")])
        (.returned "not json") =
      .ok (.obj [("thought_process", .str "not json"),
                 ("final_answer", .str "Partially True"),
                 ("citation", .str "D1: w; D2: v"),
                 ("retrieved_context_ids", .arr [.str "D1", .str "D2"])]) :=
  ⟨by decide, rfl, C4_nonjson_textual_fallback _ _ _ _ (by decide) rfl⟩

/-- Counterexample to C5 as stated: when the completion call raises an
exception whose string description is empty, the error field of the
returned verdict is the empty string, not a non-empty description. -/
theorem C5_counterexample :
    (analyze_with_gpt (fun _ => none) "c" (mkDocs [("D1", "w")]) (.raised "")).toOption.bind
        (fun v => jsonGet v "error") = some (.str "") := rfl

/-- C5 (amended): with a non-empty document list, when the completion call
raises, the result is the error fallback verdict: empty reasoning, label
"Partially True", the joined `doc_id: content` citation, the document
identifiers, and an error field equal to the exception's string description
(non-empty exactly when that description is). -/
theorem C5_gpt_error_fallback_verdict (jl : String → Option Json) (claim : String)
    (ps : List (String × String)) (msg : String) (hne : ps ≠ []) :
    analyze_with_gpt jl claim (mkDocs ps) (.raised msg) =
      .ok (.obj [("thought_process", .str ""),
                 ("final_answer", .str "Partially True"),
                 ("citation", .str (citationOf ps)),
                 ("retrieved_context_ids", .arr (idsOf ps)),
                 ("error", .str msg)]) :=
  analyze_raised jl claim ps msg

/-- Witness for the amended C5 at a concrete input: a raising completion
call with a non-empty description. -/
theorem C5_witness :
    ([("D1", "w")] : List (String × String)) ≠ [] ∧
    analyze_with_gpt (fun _ => none) "c" (mkDocs [("D1", "w")]) (.raised "rate limit exceeded") =
      .ok (.obj [("thought_process", .str ""),
                 ("final_answer", .str "Partially True"),
                 ("citation", .str "D1: w"),
                 ("retrieved_context_ids", .arr [.str "D1"]),
                 ("error", .str "rate limit exceeded")]) :=
  ⟨by decide, C5_gpt_error_fallback_verdict _ _ _ _ (by decide)⟩

/-- C6: when the knowledge base returns a non-empty document list and the
completion text parses to a JSON object, the response's
`retrieved_context_ids` field is exactly the documents' identifiers in the
order the knowledge base returned them. -/
theorem C6_ids_exact_and_in_order (jl : String → Option Json) (claim text : String)
    (kb : KbResponse) (ps : List (String × String)) (fs : List (String × Json))
    (hkb : kb_search kb = mkDocs ps) (hne : ps ≠ [])
    (hparse : jl text = some (.obj fs)) :
    jsonGet (solve_endpoint jl claim kb (.returned text)) "retrieved_context_ids" =
      some (.arr (idsOf ps)) := by
  simp only [solve_endpoint, hkb, pyTruthy_mkDocs ps hne, Bool.not_true, Bool.false_eq_true,
    if_false, analyze_parse_obj jl claim ps text fs hparse, jsonGet_setField]

/-- Witness for C6 at a concrete input: the spec's water-boils scenario,
one document `D1` and a valid JSON object completion. -/
theorem C6_witness :
    kb_search (.response 200 (some (.obj [("results",
        mkDocs [("D1", "Water boils at 100C at standard atmospheric pressure.")])]))) =
      mkDocs [("D1", "Water boils at 100C at standard atmospheric pressure.")] ∧
    ([("D1", "Water boils at 100C at standard atmospheric pressure.")] :
        List (String × String)) ≠ [] ∧
    jsonGet (solve_endpoint
        (fun _ => some (.obj [("thought_process", .str "r"), ("final_answer", .str "True"),
          ("citation", .str "D1")]))
        "Water boils at 100C at sea level"
        (.response 200 (some (.obj [("results",
          mkDocs [("D1", "Water boils at 100C at standard atmospheric pressure.")])])))
        (.returned "json")) "retrieved_context_ids" =
      some (.arr [.str "D1"]) :=
  ⟨rfl, by decide,
    C6_ids_exact_and_in_order
      (fun _ => some (.obj [("thought_process", .str "r"), ("final_answer", .str "True"),
        ("citation", .str "D1")]))
      "Water boils at 100C at sea level" "json"
      (.response 200 (some (.obj [("results",
        mkDocs [("D1", "Water boils at 100C at standard atmospheric pressure.")])])))
      [("D1", "Water boils at 100C at standard atmospheric pressure.")]
      [("thought_process", .str "r"), ("final_answer", .str "True"), ("citation", .str "D1")]
      rfl (by decide) rfl⟩

/-- Counterexample to C7 as stated: for a document list whose single
element lacks a `doc_id` key, `analyze_with_gpt` raises KeyError out of the
function (line 56 runs before the `try`), so no result carrying
`retrieved_context_ids` is returned. -/
theorem C7_counterexample :
    analyze_with_gpt (fun _ => none) "c" (.arr [.obj [("content", .str "x")]])
        (.returned "out") = .error "\x27doc_id\x27" ∧
    resultIds (analyze_with_gpt (fun _ => none) "c" (.arr [.obj [("content", .str "x")]])
        (.returned "out")) = none :=
  ⟨rfl, rfl⟩

/-- C7 (amended): for every non-empty list of well-formed documents (each an
object with `doc_id` and `content` fields), whatever the completion call
does and however its output parses, the result is returned (not raised) and
carries `retrieved_context_ids` equal to the document identifiers. -/
theorem C7_ids_attached_in_all_outcomes (jl : String → Option Json) (claim : String)
    (ps : List (String × String)) (gpt : GptOutcome) (hne : ps ≠ []) :
    resultIds (analyze_with_gpt jl claim (mkDocs ps) gpt) =
      some (.arr (idsOf ps)) := by
  cases gpt with
  | raised msg =>
    rw [analyze_raised jl claim ps msg]
    rfl
  | returned text =>
    cases hj : jl text with
    | none =>
      rw [analyze_parse_fail jl claim ps text hj]
      rfl
    | some j =>
      cases j with
      | obj fs =>
        rw [analyze_parse_obj jl claim ps text fs hj]
        simp [resultIds, jsonGet_setField]
      | null =>
        rw [analyze_parse_nonobj jl claim ps text _ hj (fun fs hfs => Json.noConfusion hfs)]
        rfl
      | bool b =>
        rw [analyze_parse_nonobj jl claim ps text _ hj (fun fs hfs => Json.noConfusion hfs)]
        rfl
      | num n =>
        rw [analyze_parse_nonobj jl claim ps text _ hj (fun fs hfs => Json.noConfusion hfs)]
        rfl
      | str s =>
        rw [analyze_parse_nonobj jl claim ps text _ hj (fun fs hfs => Json.noConfusion hfs)]
        rfl
      | arr xs =>
        rw [analyze_parse_nonobj jl claim ps text _ hj (fun fs hfs => Json.noConfusion hfs)]
        rfl

/-- Witness for the amended C7 at a concrete input: valid JSON output that
is not an object still yields a result carrying the identifiers. -/
theorem C7_witness :
    ([("D1", "w")] : List (String × String)) ≠ [] ∧
    resultIds (analyze_with_gpt (fun _ => some (.arr [])) "c" (mkDocs [("D1", "w")])
        (.returned "[]")) = some (.arr [.str "D1"]) :=
  ⟨by decide, C7_ids_attached_in_all_outcomes _ _ _ _ (by decide)⟩

/-- C8: whenever the orchestration raises (any exception escaping
`analyze_with_gpt` on a truthy document list), the endpoint boundary
converts it into the verdict-shaped fallback response with an error field;
`solve_endpoint` is a total function, so no fault is surfaced. -/
theorem C8_endpoint_catches_all (jl : String → Option Json) (claim : String)
    (kb : KbResponse) (gpt : GptOutcome) (e : String)
    (ht : pyTruthy (kb_search kb) = true)
    (h : analyze_with_gpt jl claim (kb_search kb) gpt = .error e) :
    solve_endpoint jl claim kb gpt =
      .obj [("thought_process", .str ""),
            ("final_answer", .str "Partially True"),
            ("citation", .str ""),
            ("retrieved_context_ids", .arr []),
            ("error", .str e)] := by
  simp only [solve_endpoint, ht, Bool.not_true, Bool.false_eq_true, if_false, h]

/-- Witness for C8 at a concrete input: the knowledge base hands back a
`results` list containing a bare string, so line 56 raises TypeError, and
the endpoint returns the fallback with that description. -/
theorem C8_witness :
    pyTruthy (kb_search (.response 200 (some (.obj [("results", .arr [.str "oops"])])))) = true ∧
    analyze_with_gpt (fun _ => none) "c"
        (kb_search (.response 200 (some (.obj [("results", .arr [.str "oops"])]))))
        (.returned "t") = .error "string indices must be integers, not \x27str\x27" ∧
    solve_endpoint (fun _ => none) "c"
        (.response 200 (some (.obj [("results", .arr [.str "oops"])]))) (.returned "t") =
      .obj [("thought_process", .str ""),
            ("final_answer", .str "Partially True"),
            ("citation", .str ""),
            ("retrieved_context_ids", .arr []),
            ("error", .str "string indices must be integers, not \x27str\x27")] :=
  ⟨rfl, rfl, C8_endpoint_catches_all _ _ _ _ _ rfl rfl⟩

/-- C9: the handler is deterministic in its external inputs — equal claim,
equal knowledge-base behaviour, equal completion behaviour and equal parse
function give byte-identical serialized responses. -/
theorem C9_deterministic (jl jl' : String → Option Json) (claim claim' : String)
    (kb kb' : KbResponse) (gpt gpt' : GptOutcome)
    (h1 : jl = jl') (h2 : claim = claim') (h3 : kb = kb') (h4 : gpt = gpt') :
    jsonDumps (solve_endpoint jl claim kb gpt) =
      jsonDumps (solve_endpoint jl' claim' kb' gpt') := by
  rw [h1, h2, h3, h4]

/-- Witness for C9 at a concrete input: two identical runs serialize
identically. -/
theorem C9_witness :
    jsonDumps (solve_endpoint (fun _ => none) "claim" (.netError "down") (.returned "x")) =
      jsonDumps (solve_endpoint (fun _ => none) "claim" (.netError "down") (.returned "x")) :=
  C9_deterministic _ _ _ _ _ _ _ _ rfl rfl rfl rfl

/-- C10: with a non-empty document list, when the completion text parses to
a JSON value that is not an object, the parsed value is not returned:
line 96 raises TypeError and the `except` branch returns the error fallback
verdict, valid JSON notwithstanding. -/
theorem C10_nonobject_json_error_fallback (jl : String → Option Json) (claim : String)
    (ps : List (String × String)) (text : String) (j : Json)
    (hne : ps ≠ []) (hparse : jl text = some j) (hnotobj : ∀ fs, j ≠ .obj fs) :
    analyze_with_gpt jl claim (mkDocs ps) (.returned text) =
      .ok (.obj [("thought_process", .str ""),
                 ("final_answer", .str "Partially True"),
                 ("citation", .str (citationOf ps)),
                 ("retrieved_context_ids", .arr (idsOf ps)),
                 ("error", .str ("\x27" ++ pyTypeName j ++
                   "\x27 object does not support item assignment"))]) :=
  analyze_parse_nonobj jl claim ps text j hparse hnotobj

/-- Witness for C10 at a concrete input: the completion text parses to an
empty JSON array. -/
theorem C10_witness :
    ([("D1", "w")] : List (String × String)) ≠ [] ∧
    (fun _ => some (Json.arr [])) "[]" = some (Json.arr []) ∧
    analyze_with_gpt (fun _ => some (.arr [])) "c" (mkDocs [("D1", "w")]) (.returned "[]") =
      .ok (.obj [("thought_process", .str ""),
                 ("final_answer", .str "Partially True"),
                 ("citation", .str "D1: w"),
                 ("retrieved_context_ids", .arr [.str "D1"]),
                 ("error", .str "\x27list\x27 object does not support item assignment")]) :=
  ⟨by decide, rfl,
    C10_nonobject_json_error_fallback (fun _ => some (Json.arr [])) "c" [("D1", "w")] "[]"
      (Json.arr []) (by decide) rfl (fun fs hfs => Json.noConfusion hfs)⟩

end RAGAgent
